import Mathlib

/-!
Verification of `parler/templatetags/parler_tags.py` (django-parler).

The module has two template-tag handlers:

* `ObjectLanguageNode.render`, the body of the `{% objectlanguage %}` block
  tag: it temporarily switches a translatable object's active language while
  the nested template content renders;
* `get_translated_url`, the assignment tag that computes the URL of the
  current page in another language through a four-tier best-effort chain.

The embedding below translates those two functions.  The collaborators they
call (the `switch_language` / `smart_override` context managers from
`parler.utils.context`, Django's `resolve` / `reverse`, the nested nodelist,
the duck-typed `get_view_url` / `get_absolute_url` callables) are not part of
this module's source tree; they are modelled as explicit function parameters,
and the two context managers are modelled from the spec's description of
their contract.
-/

namespace ParlerTags

/-- Language codes, e.g. `"en"`, `"fr"`. -/
abbrev Lang := String

/-- URL strings. -/
abbrev Url := String

/-- The exceptions relevant to this module: `TranslationDoesNotExist`
(from `parler.models`), `TemplateSyntaxError` (from `django.template`),
and any other exception, which this module never handles specially. -/
inductive Err where
  | translationDoesNotExist
  | templateSyntaxError
  | otherError
deriving DecidableEq, Repr

/-- The value produced by `self.object_var.resolve(context)` inside
`ObjectLanguageNode.render`: either an instance of `TranslatableModel`
(identified by an id; its active-language selector lives in the state
threaded through `render`) or some other, non-translatable value. -/
inductive ResolvedObject where
  | transl (id : Nat)
  | plain
deriving DecidableEq, Repr

/-- Modelled from the spec: the `switch_language` context manager imported
from `parler.utils.context`, whose source is not in this tree.  Per the spec
("acquire scoped ownership of the target language on the object ... the
object's previous language is restored even if the nested render raises")
it records the object's current active language, switches the object to
`new_language`, runs the body, and restores the recorded language on exit —
on ordinary exit and on exceptional exit alike.  The state threaded through
is the object's active-language selector; the body receives the language the
object carries when it starts and returns its outcome together with the
language the object carries when it finishes. -/
def switch_language (new_language : Lang)
    (body : Lang → Except Err String × Lang) (s : Lang) :
    Except Err String × Lang :=
  let saved := s
  let result := body new_language
  (result.1, saved)

/-- The compiled `{% objectlanguage %}` node.  `nodelist` is the nested
template content as a function of the object's active language (it may
itself change the object's language, and may raise); `object_var` is the
already-resolved object variable; `language_var` is the already-resolved
optional language argument (`none` when the tag was written without one). -/
structure ObjectLanguageNode where
  nodelist : Lang → Except Err String × Lang
  object_var : ResolvedObject
  language_var : Option Lang

/-- `ObjectLanguageNode.render` from `parler/templatetags/parler_tags.py`.
`active_language` is the value Django's `get_language()` returns at render
time; `s` is the object's active language before the block.  The result
pairs the rendering outcome (output, or the exception raised) with the
object's active language after the block. -/
def ObjectLanguageNode.render (node : ObjectLanguageNode)
    (active_language : Lang) (s : Lang) : Except Err String × Lang :=
  let new_language :=
    match node.language_var with
    | some l => l
    | none => active_language
  match node.object_var with
  | .plain =>
      -- raise TemplateSyntaxError("Object '{0}' is not an instance of TranslableModel" ...)
      (.error .templateSyntaxError, s)
  | .transl _ =>
      -- with switch_language(object, new_language): output = self.nodelist.render(context)
      switch_language new_language node.nodelist s

/-- A duck-typed object as `get_translated_url` sees it: whether it is an
instance of `TranslatableModel`, and its `get_absolute_url` attribute
(`none` when `hasattr(object, 'get_absolute_url')` is false).  The callable
receives the language in effect during the call — `switch_language(object,
lang_code)` and `smart_override(lang_code)` both make that `lang_code`. -/
structure Obj where
  translatable : Bool
  get_absolute_url : Option (Lang → Except Err Url)

/-- A view as `get_translated_url` sees it: its `get_view_url` attribute
(`none` when absent or falsy) and its `object` attribute
(`getattr(view, 'object', None)`). -/
structure View where
  get_view_url : Option (Lang → Except Err Url)
  object : Option Obj

/-- The result of Django's `resolve(path)`: route name plus positional and
keyword arguments. -/
structure ResolverMatch where
  view_name : String
  args : List String
  kwargs : List (String × String)

/-- The slice of the template context that `get_translated_url` reads:
`context.get('view', None)`, `context.get('object', None)`, and
`context['request'].path`. -/
structure Ctx where
  view : Option View
  object : Option Obj
  request_path : String

/-- The `if object is not None and hasattr(object, 'get_absolute_url')`
step of `get_translated_url`: `.ok (some url)` models the try-block
`return`ing `url`, `.ok none` models control falling through to the
route-name fallback after the try-block, `.error e` models the body
raising. -/
def object_step (object : Option Obj) (lang_code : Lang) :
    Except Err (Option Url) :=
  match object with
  | some o =>
      match o.get_absolute_url with
      | some get_absolute_url =>
          if o.translatable then
            -- with switch_language(object, lang_code): return object.get_absolute_url()
            (get_absolute_url lang_code).map some
          else
            -- with smart_override(lang_code): return object.get_absolute_url()
            (get_absolute_url lang_code).map some
      | none => .ok none
  | none => .ok none

/-- `get_translated_url` from `parler/templatetags/parler_tags.py`.
`resolve` and `reverse` are Django's URL-routing collaborators; `reverse`
takes the active language as its last argument, since the source calls it
inside `smart_override(lang_code)`.  `object` is the tag's optional
explicit argument.  `.ok url` models a returned URL (`.ok ""` the empty
result), `.error e` a propagated exception. -/
def get_translated_url (resolve : String → ResolverMatch)
    (reverse : String → List String → List (String × String) → Lang → Url)
    (context : Ctx) (lang_code : Lang) (object : Option Obj) :
    Except Err Url :=
  let view := context.view
  let object :=
    match object with
    | none => context.object
    | some o => some o
  let try_body : Except Err (Option Url) :=
    match view with
    | some v =>
        match v.get_view_url with
        | some get_view_url =>
            -- with smart_override(lang_code): return view.get_view_url()
            (get_view_url lang_code).map some
        | none =>
            -- if object is None: object = getattr(view, 'object', None)
            let object :=
              match object with
              | none => v.object
              | some o => some o
            object_step object lang_code
    | none => object_step object lang_code
  match try_body with
  | .ok (some url) => .ok url
  | .error .translationDoesNotExist =>
      -- except TranslationDoesNotExist: return ''
      .ok ""
  | .error e => .error e
  | .ok none =>
      let resolvermatch := resolve context.request_path
      -- with smart_override(lang_code): return reverse(...)
      .ok (reverse resolvermatch.view_name resolvermatch.args
            resolvermatch.kwargs lang_code)

/-- C1: for every translatable object and language choice, after the
`objectlanguage` block's render completes — whether the nested content
renders successfully or raises — the object's active language equals the
value it had before the block was entered. -/
theorem objectlanguage_restores_language
    (nodelist : Lang → Except Err String × Lang) (id : Nat)
    (language_var : Option Lang) (active_language s : Lang) :
    (ObjectLanguageNode.render ⟨nodelist, .transl id, language_var⟩
      active_language s).2 = s := by
  simp [ObjectLanguageNode.render, switch_language]

/-- C5: rendering the `objectlanguage` block with a non-translatable object
raises `TemplateSyntaxError` for every nested content — the nested content
is never consulted, the error is not swallowed, and the state is untouched. -/
theorem objectlanguage_non_translatable_raises
    (nodelist : Lang → Except Err String × Lang)
    (language_var : Option Lang) (active_language s : Lang) :
    ObjectLanguageNode.render ⟨nodelist, .plain, language_var⟩
      active_language s = (.error .templateSyntaxError, s) := by
  simp [ObjectLanguageNode.render]

/-- C7: when the `objectlanguage` block is invoked without an explicit
language argument, the nested content renders with the object switched to
`active_language`, the value of the global active-language getter
(`get_language()`) at render time. -/
theorem objectlanguage_defaults_to_active_language
    (nodelist : Lang → Except Err String × Lang) (id : Nat)
    (active_language s : Lang) :
    ObjectLanguageNode.render ⟨nodelist, .transl id, none⟩
      active_language s = ((nodelist active_language).1, s) := by
  simp [ObjectLanguageNode.render, switch_language]

/-- C8: if the nested content of the `objectlanguage` block raises
`TranslationDoesNotExist`, the block does not catch it — the error
propagates to the caller, while the object's language is still restored to
its pre-block value. -/
theorem objectlanguage_translation_missing_propagates
    (nodelist : Lang → Except Err String × Lang) (id : Nat)
    (language_var : Option Lang) (active_language s : Lang)
    (h : (nodelist (match language_var with
            | some l => l
            | none => active_language)).1
          = .error .translationDoesNotExist) :
    ObjectLanguageNode.render ⟨nodelist, .transl id, language_var⟩
      active_language s = (.error .translationDoesNotExist, s) := by
  simp [ObjectLanguageNode.render, switch_language, h]

/-- Witness for C8: a nested render that raises `TranslationDoesNotExist`
under the explicit language `"fr"` makes the block propagate the error and
restore the object's language `"en"`. -/
theorem objectlanguage_translation_missing_propagates_witness :
    ObjectLanguageNode.render
      ⟨fun l => (.error .translationDoesNotExist, l), .transl 0, some "fr"⟩
      "en" "en" = (.error .translationDoesNotExist, "en") :=
  objectlanguage_translation_missing_propagates
    (fun l => (.error .translationDoesNotExist, l)) 0 (some "fr") "en" "en" rfl

/-- C2: when the context's view exposes a truthy `get_view_url`, its result
under the target-language override is returned, and the explicit object
argument, `context['object']`, the view's bound object, the request path and
the routing collaborators are never consulted — tier 1 strictly dominates
tiers 2–4. -/
theorem get_translated_url_view_url_dominates
    (resolve resolve' : String → ResolverMatch)
    (reverse reverse' : String → List String → List (String × String) → Lang → Url)
    (f : Lang → Except Err Url) (vo vo' co co' : Option Obj) (p p' : String)
    (lang_code : Lang) (object object' : Option Obj)
    (v : View) (hf : v = ⟨some f, vo⟩) :
    (∀ u, f lang_code = .ok u →
      get_translated_url resolve reverse ⟨some v, co, p⟩ lang_code object = .ok u)
    ∧ get_translated_url resolve reverse ⟨some v, co, p⟩ lang_code object
        = get_translated_url resolve' reverse' ⟨some ⟨some f, vo'⟩, co', p'⟩
            lang_code object' := by
  subst hf
  constructor
  · intro u hu
    simp [get_translated_url, hu, Except.map]
  · cases hfl : f lang_code with
    | ok u => simp [get_translated_url, hfl, Except.map]
    | error e => cases e <;> simp [get_translated_url, hfl, Except.map]

/-- Witness for C2: a view whose `get_view_url` yields `"/fr/page/"` makes
the resolver return exactly that, though an explicit object with its own URL
is also supplied. -/
theorem get_translated_url_view_url_dominates_witness :
    get_translated_url (fun _ => ⟨"home", [], []⟩) (fun n _ _ l => l ++ n)
      ⟨some ⟨some (fun _ => .ok "/fr/page/"),
        some ⟨true, some (fun _ => .ok "/obj/")⟩⟩,
        some ⟨true, some (fun _ => .ok "/ctx/")⟩, "/x/"⟩
      "fr" (some ⟨true, some (fun _ => .ok "/arg/")⟩) = .ok "/fr/page/" :=
  (get_translated_url_view_url_dominates (fun _ => ⟨"home", [], []⟩)
    (fun _ => ⟨"home", [], []⟩) (fun n _ _ l => l ++ n) (fun n _ _ l => l ++ n)
    (fun _ => .ok "/fr/page/") (some ⟨true, some (fun _ => .ok "/obj/")⟩)
    none (some ⟨true, some (fun _ => .ok "/ctx/")⟩) none "/x/" "/x/"
    "fr" (some ⟨true, some (fun _ => .ok "/arg/")⟩) none
    _ rfl).1 "/fr/page/" rfl

/-- C3: when the subject object is translatable, exposes `get_absolute_url`,
and that call raises `TranslationDoesNotExist` for the target language (and
no view `get_view_url` shortcut preempts the object path), the resolver
returns the empty string instead of propagating the error. -/
theorem get_translated_url_translation_missing_empty
    (resolve : String → ResolverMatch)
    (reverse : String → List String → List (String × String) → Lang → Url)
    (context : Ctx) (lang_code : Lang) (o : Obj) (g : Lang → Except Err Url)
    (hview : ∀ v, context.view = some v → v.get_view_url = none)
    (hg : o.get_absolute_url = some g)
    (ht : o.translatable = true)
    (hraise : g lang_code = .error .translationDoesNotExist) :
    get_translated_url resolve reverse context lang_code (some o) = .ok "" := by
  obtain ⟨view, co, p⟩ := context
  cases view with
  | none => simp [get_translated_url, object_step, hg, ht, hraise, Except.map]
  | some v =>
      have hv := hview v rfl
      simp [get_translated_url, hv, object_step, hg, ht, hraise, Except.map]

/-- Witness for C3: a translatable explicit object whose URL computation
raises `TranslationDoesNotExist` for `"de"` yields the empty string. -/
theorem get_translated_url_translation_missing_empty_witness :
    get_translated_url (fun _ => ⟨"home", [], []⟩) (fun n _ _ l => l ++ n)
      ⟨none, none, "/x/"⟩ "de"
      (some ⟨true, some (fun _ => .error .translationDoesNotExist)⟩) = .ok "" :=
  get_translated_url_translation_missing_empty (fun _ => ⟨"home", [], []⟩)
    (fun n _ _ l => l ++ n) ⟨none, none, "/x/"⟩ "de"
    ⟨true, some (fun _ => .error .translationDoesNotExist)⟩
    (fun _ => .error .translationDoesNotExist)
    (fun _ h => Option.noConfusion h) rfl rfl rfl

/-- C4: when no subject object is resolvable (no explicit argument, no
`context['object']`, no view-bound object) and no `get_view_url` capability
applies, the resolver resolves the current request path and returns the
reverse of that route name with the same arguments under the target
language; consequently, whenever `resolve` inverts `reverse`, the returned
URL's route name equals the current request's route name. -/
theorem get_translated_url_route_fallback
    (resolve : String → ResolverMatch)
    (reverse : String → List String → List (String × String) → Lang → Url)
    (context : Ctx) (lang_code : Lang)
    (hctx : context.object = none)
    (hview : ∀ v, context.view = some v → v.get_view_url = none ∧ v.object = none) :
    get_translated_url resolve reverse context lang_code none
      = .ok (reverse (resolve context.request_path).view_name
          (resolve context.request_path).args
          (resolve context.request_path).kwargs lang_code)
    ∧ ((∀ n a k l, (resolve (reverse n a k l)).view_name = n) →
        ∃ u, get_translated_url resolve reverse context lang_code none = .ok u
          ∧ (resolve u).view_name = (resolve context.request_path).view_name) := by
  obtain ⟨view, co, p⟩ := context
  have hmain : get_translated_url resolve reverse ⟨view, co, p⟩ lang_code none
      = .ok (reverse (resolve p).view_name (resolve p).args
          (resolve p).kwargs lang_code) := by
    cases view with
    | none => simp at hctx; simp [get_translated_url, hctx, object_step]
    | some v =>
        obtain ⟨h1, h2⟩ := hview v rfl
        simp at hctx
        simp [get_translated_url, h1, h2, hctx, object_step]
  exact ⟨hmain, fun hrt => ⟨_, hmain, hrt _ _ _ _⟩⟩

/-- Witness for C4: with an empty context and no argument, the resolver
returns the target-language reverse of the current path's route, and that
URL resolves back to the same route name. -/
theorem get_translated_url_route_fallback_witness :
    get_translated_url (fun _ => ⟨"home", [], []⟩) (fun n _ _ l => l ++ n)
      ⟨some ⟨none, none⟩, none, "/x/"⟩ "de" none = .ok "dehome" :=
  (get_translated_url_route_fallback (fun _ => ⟨"home", [], []⟩)
    (fun n _ _ l => l ++ n) ⟨some ⟨none, none⟩, none, "/x/"⟩ "de" rfl
    (fun _ h => by cases h; exact ⟨rfl, rfl⟩)).1

/-- C6: the subject object is determined in strict order — the explicit
argument if given (so `context['object']` and the view's bound object are
never consulted), otherwise `context['object']` (which then behaves exactly
as an explicit argument, the view's bound object still unconsulted),
otherwise the view's bound object (which then behaves exactly as an
explicit argument). -/
theorem get_translated_url_subject_order
    (resolve : String → ResolverMatch)
    (reverse : String → List String → List (String × String) → Lang → Url)
    (lang_code : Lang) (p : String)
    (gvu : Option (Lang → Except Err Url)) (vo vo' co co' : Option Obj)
    (o : Obj) :
    get_translated_url resolve reverse ⟨some ⟨gvu, vo⟩, co, p⟩ lang_code (some o)
      = get_translated_url resolve reverse ⟨some ⟨gvu, vo'⟩, co', p⟩ lang_code (some o)
    ∧ get_translated_url resolve reverse ⟨some ⟨gvu, vo⟩, some o, p⟩ lang_code none
      = get_translated_url resolve reverse ⟨some ⟨gvu, vo'⟩, none, p⟩ lang_code (some o)
    ∧ get_translated_url resolve reverse ⟨some ⟨none, vo⟩, none, p⟩ lang_code none
      = get_translated_url resolve reverse ⟨some ⟨none, none⟩, none, p⟩ lang_code vo := by
  refine ⟨?_, ?_, ?_⟩
  · cases gvu <;> simp [get_translated_url]
  · cases gvu <;> simp [get_translated_url]
  · cases vo <;> simp [get_translated_url]

/-- C9: the translation-missing-to-empty conversion covers the whole try
block, not only the translatable-object path: a `TranslationDoesNotExist`
raised by `view.get_view_url()` (tier 1) or by a non-translatable object's
`get_absolute_url` (tier 3) also makes the resolver return the empty
string. -/
theorem get_translated_url_empty_covers_tiers_one_and_three
    (resolve : String → ResolverMatch)
    (reverse : String → List String → List (String × String) → Lang → Url)
    (co vo object : Option Obj) (p : String) (lang_code : Lang)
    (f g : Lang → Except Err Url) (o : Obj)
    (hf : f lang_code = .error .translationDoesNotExist)
    (hg : o.get_absolute_url = some g)
    (hnt : o.translatable = false)
    (hgr : g lang_code = .error .translationDoesNotExist) :
    get_translated_url resolve reverse ⟨some ⟨some f, vo⟩, co, p⟩ lang_code object
      = .ok ""
    ∧ get_translated_url resolve reverse ⟨none, none, p⟩ lang_code (some o)
      = .ok "" := by
  constructor
  · simp [get_translated_url, hf, Except.map]
  · simp [get_translated_url, object_step, hg, hnt, hgr, Except.map]

/-- Witness for C9: both a raising `get_view_url` and a raising
non-translatable object URL yield the empty string. -/
theorem get_translated_url_empty_covers_tiers_one_and_three_witness :
    get_translated_url (fun _ => ⟨"home", [], []⟩) (fun n _ _ l => l ++ n)
      ⟨some ⟨some (fun _ => .error .translationDoesNotExist), none⟩, none, "/x/"⟩
      "de" none = .ok ""
    ∧ get_translated_url (fun _ => ⟨"home", [], []⟩) (fun n _ _ l => l ++ n)
      ⟨none, none, "/x/"⟩ "de"
      (some ⟨false, some (fun _ => .error .translationDoesNotExist)⟩) = .ok "" :=
  get_translated_url_empty_covers_tiers_one_and_three
    (fun _ => ⟨"home", [], []⟩) (fun n _ _ l => l ++ n) none none none "/x/" "de"
    (fun _ => .error .translationDoesNotExist)
    (fun _ => .error .translationDoesNotExist)
    ⟨false, some (fun _ => .error .translationDoesNotExist)⟩
    rfl rfl rfl rfl

/-- C10: when a subject object is found but it has no `get_absolute_url`
(and no `get_view_url` shortcut applies), the resolver does not return
empty there — it falls through to the route-name fallback and re-reverses
the current request's route under the target language. -/
theorem get_translated_url_no_absolute_url_falls_through
    (resolve : String → ResolverMatch)
    (reverse : String → List String → List (String × String) → Lang → Url)
    (context : Ctx) (lang_code : Lang) (o : Obj)
    (hview : ∀ v, context.view = some v → v.get_view_url = none)
    (hna : o.get_absolute_url = none) :
    get_translated_url resolve reverse context lang_code (some o)
      = .ok (reverse (resolve context.request_path).view_name
          (resolve context.request_path).args
          (resolve context.request_path).kwargs lang_code) := by
  obtain ⟨view, co, p⟩ := context
  cases view with
  | none => simp [get_translated_url, object_step, hna]
  | some v =>
      have hv := hview v rfl
      simp [get_translated_url, hv, object_step, hna]

/-- Witness for C10: an explicit object without `get_absolute_url` makes
the resolver use the route-name fallback. -/
theorem get_translated_url_no_absolute_url_falls_through_witness :
    get_translated_url (fun _ => ⟨"home", [], []⟩) (fun n _ _ l => l ++ n)
      ⟨some ⟨none, none⟩, none, "/x/"⟩ "de" (some ⟨true, none⟩) = .ok "dehome" :=
  get_translated_url_no_absolute_url_falls_through (fun _ => ⟨"home", [], []⟩)
    (fun n _ _ l => l ++ n) ⟨some ⟨none, none⟩, none, "/x/"⟩ "de" ⟨true, none⟩
    (fun _ h => by cases h; rfl) rfl

end ParlerTags
